import Mathlib

/-!
Shallow embedding of the Scholarbase Express API (TypeScript) route handlers.

The repository serves mock in-memory stores (`mockCourses`, `mockUsers`,
`mockStudents`, `mockEnrollments`) through Express routers.  Each handler is
embedded as a pure Lean function from the relevant store state and request
data to a response (HTTP status code, JSON payload fields, and — for mutating
handlers — the successor store state, since the handlers mutate the module
level arrays in place).

JavaScript conventions modelled explicitly:
  * query/body string parameters are `Option String`; `none` is `undefined`,
    and JS truthiness of a string (`if (x)`) is "present and non-empty";
  * decimal numbers in course records (`price`, `rating`) are `Int` values
    in fixed minor units (cents, hundredths), and `created_at` timestamps
    are `Int` epoch milliseconds (the value of `new Date(s).getTime()`
    used by the `newest` comparator) — every comparison the handlers
    perform is preserved by these strictly monotone embeddings;
  * `Array.prototype.sort` with a numeric comparator is a stable sort by the
    comparator key (ES2019 requires stability), embedded with
    `List.insertionSort`, which Mathlib proves stable;
  * `Array.prototype.slice(s, s + n)` for non-negative arguments is
    `(l.drop s).take n`, `splice(i, 1)` is `l.eraseIdx i`.
-/

open List

/-- JS truthiness of an optional string value: `undefined` and `""` are falsy. -/
def optTruthy (o : Option String) : Bool :=
  match o with
  | none => false
  | some s => !s.isEmpty

/- ### Enrollment store (routes/enrollment.ts) -/

/-- The `Enrollment` record stored in `mockEnrollments`. -/
structure Enrollment where
  id : String
  created_at : String
  student_id : String
  course_id : String
  tutor_id : Option String
deriving Repr, DecidableEq

/-- The initial contents of the module-level `mockEnrollments` array. -/
def mockEnrollments : List Enrollment :=
  [⟨"enrollment_1", "2024-01-15T10:00:00Z", "user_123", "course_1", some "tutor_1"⟩,
   ⟨"enrollment_2", "2024-01-20T15:30:00Z", "user_456", "course_2", some "tutor_2"⟩]

/-- Result of a store-mutating handler: HTTP status, successor store, and the
record the response body echoes back (when any). -/
structure MutResult (α : Type) where
  status : Nat
  store : List α
  record : Option α
deriving Repr, DecidableEq

/-- `POST /enrollments` (routes/enrollment.ts, `router.post("/")`):
validates that `student_id` and `course_id` are truthy, rejects an existing
(student, course) pair with 409, otherwise pushes a fresh record whose id is
`"enrollment_" + Date.now()` and whose `created_at` is the current ISO time
(both passed in as `nowId` / `nowIso`). -/
def createEnrollment (store : List Enrollment)
    (student_id course_id tutor_id : Option String)
    (nowId nowIso : String) : MutResult Enrollment :=
  if !(optTruthy student_id && optTruthy course_id) then
    ⟨400, store, none⟩
  else
    match store.find? (fun e =>
        e.student_id == student_id.getD "" && e.course_id == course_id.getD "") with
    | some _ => ⟨409, store, none⟩
    | none =>
      let newE : Enrollment :=
        ⟨"enrollment_" ++ nowId, nowIso, student_id.getD "", course_id.getD "",
         if optTruthy tutor_id then tutor_id else none⟩
      ⟨201, store ++ [newE], some newE⟩

/-- `DELETE /enrollments/:enrollmentId` (routes/enrollment.ts): `findIndex`
by id, 404 when absent, otherwise `splice(i, 1)`. -/
def deleteEnrollment (store : List Enrollment) (enrollmentId : String) :
    Nat × List Enrollment :=
  match store.findIdx? (fun e => e.id == enrollmentId) with
  | none => (404, store)
  | some i => (200, store.eraseIdx i)

/-- `POST /enrollments/student/:studentId/unenroll` (routes/enrollment.ts):
400 when `course_id` is falsy, `findIndex` on the (student, course) pair,
404 when absent, otherwise `splice(i, 1)`. -/
def unenroll (store : List Enrollment) (studentId : String)
    (course_id : Option String) : Nat × List Enrollment :=
  if !optTruthy course_id then (400, store)
  else
    match store.findIdx? (fun e =>
        e.student_id == studentId && e.course_id == course_id.getD "") with
    | none => (404, store)
    | some i => (200, store.eraseIdx i)

/- ### User and student stores (src/routes/user.ts) -/

/-- The `mockUsers` record shape. -/
structure User where
  id : String
  email : String
  created_at : String
deriving Repr, DecidableEq

/-- The `mockStudents` record shape.  `profile_picture` is `Option String`
(`none` is JSON `null`); `updated_at` is absent (`none`) until the first
profile update writes it. -/
structure Student where
  id : String
  First_name : String
  Last_name : String
  email : String
  display_name : String
  academic_level : Option String
  profile_picture : Option String
  created_at : String
  updated_at : Option String
deriving Repr, DecidableEq

/-- Initial contents of the module-level `mockUsers` array. -/
def mockUsers : List User :=
  [⟨"user_123", "john.doe@example.com", "2024-01-01T00:00:00Z"⟩,
   ⟨"user_456", "jane.smith@example.com", "2024-01-15T00:00:00Z"⟩]

/-- The first record of `mockStudents`. -/
def studentJohn : Student :=
  ⟨"user_123", "John", "Doe", "john.doe@example.com", "John Doe",
    some "University", none, "2024-01-01T00:00:00Z", none⟩

/-- The second record of `mockStudents`. -/
def studentJane : Student :=
  ⟨"user_456", "Jane", "Smith", "jane.smith@example.com", "Jane Smith",
    some "Graduate", some "/avatars/jane.jpg", "2024-01-15T00:00:00Z", none⟩

/-- Initial contents of the module-level `mockStudents` array. -/
def mockStudents : List Student := [studentJohn, studentJane]

/-- Response of `GET /users/profile/:userId`. -/
inductive ProfileResult where
  | notFound
  | ok (user : User) (student : Option Student)
deriving Repr, DecidableEq

/-- `GET /users/profile/:userId` (src/routes/user.ts): finds the user and the
student by id; 404 only when the user is absent, the student defaults to
`null` in the response body. -/
def getProfile (users : List User) (students : List Student)
    (userId : String) : ProfileResult :=
  match users.find? (fun u => u.id == userId) with
  | none => .notFound
  | some u => .ok u (students.find? (fun s => s.id == userId))

/- ### Course store (routes/course.ts) -/

/-- The `Course` record stored in `mockCourses`.  Decimal JS numbers are
embedded as integers in fixed minor units, preserving every comparison the
handlers perform: `price` and `original_price` in cents (99.99 → 9999),
`rating` in hundredths (4.8 → 480), `created_at` as the epoch-millisecond
value `new Date(created_at).getTime()` that the `newest` comparator uses. -/
structure Course where
  id : String
  title : String
  description : String
  instructor : String
  author : String
  price : Int
  original_price : Int
  rating : Int
  review_count : Nat
  student_count : Nat
  thumbnail : String
  category : String
  level : String
  featured : Bool
  is_published : Bool
  created_at : Int
  duration_hours : Nat
  lesson_count : Nat
  tags : List String
deriving Repr, DecidableEq

/-- The first record of `mockCourses` (routes/course.ts). -/
def courseWeb : Course :=
  { id := "course_1", title := "Introduction to Web Development",
    description := "Learn the fundamentals of web development with HTML, CSS, and JavaScript",
    instructor := "Dr. Sarah Johnson", author := "tutor_1",
    price := 9999, original_price := 14999, rating := 480, review_count := 156,
    student_count := 1250, thumbnail := "/placeholder.jpg",
    category := "Programming", level := "Beginner", featured := true,
    is_published := true, created_at := 1704067200000, duration_hours := 40,
    lesson_count := 25, tags := ["HTML", "CSS", "JavaScript", "Web Development"] }

/-- The second record of `mockCourses` (routes/course.ts). -/
def courseReact : Course :=
  { id := "course_2", title := "Advanced React Development",
    description := "Master React with hooks, context, and advanced patterns",
    instructor := "Prof. Michael Chen", author := "tutor_2",
    price := 14999, original_price := 19999, rating := 490, review_count := 89,
    student_count := 890, thumbnail := "/placeholder.jpg",
    category := "Programming", level := "Advanced", featured := true,
    is_published := true, created_at := 1706745600000, duration_hours := 60,
    lesson_count := 35, tags := ["React", "JavaScript", "Frontend", "Hooks"] }

/-- The contents of the module-level `mockCourses` array (routes/course.ts). -/
def mockCourses : List Course := [courseWeb, courseReact]

/-- `s.toLowerCase()` on the character data. -/
def lowerStr (s : String) : String := String.mk (s.data.map Char.toLower)

/-- Character-list test for `needle` beginning `hay` (helper for `includes`). -/
def charsHavePre : List Char → List Char → Bool
  | _, [] => true
  | [], _ :: _ => false
  | h :: hs, n :: ns => h == n && charsHavePre hs ns

/-- Character-list test for `needle` occurring inside `hay`. -/
def charsContain : List Char → List Char → Bool
  | [], needle => needle.isEmpty
  | h :: hs, needle => charsHavePre (h :: hs) needle || charsContain hs needle

/-- `hay.includes(needle)` for JS strings. -/
def strIncludes (hay needle : String) : Bool := charsContain hay.data needle.data

/-- The search filter predicate of `GET /courses`: the lowered search term
occurs in the lowered title, instructor, or description. -/
def matchesSearch (searchLower : String) (c : Course) : Bool :=
  strIncludes (lowerStr c.title) searchLower ||
  strIncludes (lowerStr c.instructor) searchLower ||
  strIncludes (lowerStr c.description) searchLower

/-- The query parameters of `GET /courses`.  String parameters are `none`
when absent; `priceMin`/`priceMax` hold the parsed numeric value (in cents)
of a truthy parameter; `limit`/`offset` hold the parsed integers after the
defaults `20`/`0` are applied. -/
structure CoursesQuery where
  search : Option String
  category : Option String
  level : Option String
  featured : Option String
  priceMin : Option Int
  priceMax : Option Int
  sortBy : Option String
  limit : Nat
  offset : Nat
deriving Repr, DecidableEq

/-- A `GET /courses` request with no query parameters supplied. -/
def emptyQuery : CoursesQuery :=
  ⟨none, none, none, none, none, none, none, 20, 0⟩

/-- The filter pipeline of `GET /courses` (routes/course.ts lines 182-209),
one guarded `filter` per parameter, applied in source order. -/
def applyFilters (q : CoursesQuery) (l0 : List Course) : List Course :=
  let l1 := if optTruthy q.search then
      l0.filter (fun c => matchesSearch (lowerStr (q.search.getD "")) c) else l0
  let l2 := if optTruthy q.category then
      l1.filter (fun c => c.category == q.category.getD "") else l1
  let l3 := if optTruthy q.level then
      l2.filter (fun c => c.level == q.level.getD "") else l2
  let l4 := if (q.featured).isSome then
      l3.filter (fun c => c.featured == (q.featured.getD "" == "true")) else l3
  let l5 := if (q.priceMin).isSome then
      l4.filter (fun c => decide (q.priceMin.getD 0 ≤ c.price)) else l4
  if (q.priceMax).isSome then
    l5.filter (fun c => decide (c.price ≤ q.priceMax.getD 0)) else l5

/-- Ascending-price order, the comparator `a.price - b.price`. -/
def byPriceLow (a b : Course) : Prop := a.price ≤ b.price

/-- Descending-price order, the comparator `b.price - a.price`. -/
def byPriceHigh (a b : Course) : Prop := b.price ≤ a.price

/-- Descending-rating order, the comparator `b.rating - a.rating`. -/
def byRating (a b : Course) : Prop := b.rating ≤ a.rating

/-- Descending-creation-time order, the comparator on `Date.getTime()`. -/
def byNewest (a b : Course) : Prop := b.created_at ≤ a.created_at

/-- Descending-student-count ("popularity") order, the comparator
`b.student_count - a.student_count`. -/
def byPopular (a b : Course) : Prop := b.student_count ≤ a.student_count

instance : DecidableRel byPriceLow :=
  fun a b => inferInstanceAs (Decidable (a.price ≤ b.price))
instance : DecidableRel byPriceHigh :=
  fun a b => inferInstanceAs (Decidable (b.price ≤ a.price))
instance : DecidableRel byRating :=
  fun a b => inferInstanceAs (Decidable (b.rating ≤ a.rating))
instance : DecidableRel byNewest :=
  fun a b => inferInstanceAs (Decidable (b.created_at ≤ a.created_at))
instance : DecidableRel byPopular :=
  fun a b => inferInstanceAs (Decidable (b.student_count ≤ a.student_count))

instance : IsTotal Course byPriceLow := ⟨fun a b => Int.le_total a.price b.price⟩
instance : IsTrans Course byPriceLow := ⟨fun _ _ _ h1 h2 => le_trans h1 h2⟩
instance : IsTotal Course byPriceHigh := ⟨fun a b => Int.le_total b.price a.price⟩
instance : IsTrans Course byPriceHigh := ⟨fun _ _ _ h1 h2 => le_trans h2 h1⟩
instance : IsTotal Course byRating := ⟨fun a b => Int.le_total b.rating a.rating⟩
instance : IsTrans Course byRating := ⟨fun _ _ _ h1 h2 => le_trans h2 h1⟩
instance : IsTotal Course byNewest :=
  ⟨fun a b => Int.le_total b.created_at a.created_at⟩
instance : IsTrans Course byNewest := ⟨fun _ _ _ h1 h2 => le_trans h2 h1⟩
instance : IsTotal Course byPopular :=
  ⟨fun a b => Nat.le_total b.student_count a.student_count⟩
instance : IsTrans Course byPopular := ⟨fun _ _ _ h1 h2 => le_trans h2 h1⟩

/-- The sorting step of `GET /courses` (routes/course.ts lines 211-231):
no sort at all when `sortBy` is falsy (absent or empty), otherwise a stable
sort by the switched-on comparator, the `switch` default (which also serves
`"popular"`) being descending student count. -/
def sortCourses (sb : Option String) (l : List Course) : List Course :=
  match sb with
  | none => l
  | some s =>
    if s = "" then l
    else if s = "price-low" then List.insertionSort byPriceLow l
    else if s = "price-high" then List.insertionSort byPriceHigh l
    else if s = "rating" then List.insertionSort byRating l
    else if s = "newest" then List.insertionSort byNewest l
    else List.insertionSort byPopular l

/-- The order relation guaranteed for the output of `sortCourses`:
the comparator key for a recognised (truthy) sort key, the trivial relation
when no sort is applied. -/
def sortRel (sb : Option String) : Course → Course → Prop :=
  match sb with
  | none => fun _ _ => True
  | some s =>
    if s = "" then fun _ _ => True
    else if s = "price-low" then byPriceLow
    else if s = "price-high" then byPriceHigh
    else if s = "rating" then byRating
    else if s = "newest" then byNewest
    else byPopular

/-- The response of `GET /courses`. -/
structure CoursesResponse where
  courses : List Course
  total : Nat
  page : Nat
  limit : Nat
deriving Repr, DecidableEq

/-- `GET /courses` (routes/course.ts lines 176-244): filter, sort in place,
then slice `[offset, offset + limit)`; `total` is the length of the
filtered (and in-place sorted) array, `page` is `floor(offset / limit) + 1`. -/
def getCourses (store : List Course) (q : CoursesQuery) : CoursesResponse :=
  let filtered := applyFilters q store
  let sorted := sortCourses q.sortBy filtered
  { courses := (sorted.drop q.offset).take q.limit,
    total := sorted.length,
    page := q.offset / q.limit + 1,
    limit := q.limit }

/-- `GET /courses/category/:category` (routes/course.ts lines 342-362). -/
inductive CategoryResult where
  | notFound
  | ok (courses : List Course) (total : Nat)
deriving Repr, DecidableEq

/-- `GET /courses/category/:category`: 404 unless some course has the
category; otherwise filter by category, slice to a truthy `limit`, and
report the length of the sliced list as `total`. -/
def getCoursesByCategory (store : List Course) (category : String)
    (limit : Option Nat) : CategoryResult :=
  if !(store.any (fun c => c.category == category)) then .notFound
  else
    let byCat := store.filter (fun c => c.category == category)
    let sliced := match limit with
      | some n => byCat.take n
      | none => byCat
    .ok sliced sliced.length

/-- `POST /users/create-profile` request body (src/routes/user.ts). -/
structure CreateProfileBody where
  id : Option String
  firstName : Option String
  lastName : Option String
  email : Option String
  displayName : Option String
  academicLevel : Option String
  profilePicture : Option String
deriving Repr, DecidableEq

/-- `POST /users/create-profile` (src/routes/user.ts lines 363-395):
400 when a required field is falsy, 400 again ("Student profile already
exists") when a student with the id is already stored, otherwise pushes the
new student and returns 201. -/
def createProfile (students : List Student) (b : CreateProfileBody)
    (now : String) : MutResult Student :=
  if !(optTruthy b.id && optTruthy b.firstName && optTruthy b.lastName &&
        optTruthy b.email) then
    ⟨400, students, none⟩
  else if (students.find? (fun s => s.id == b.id.getD "")).isSome then
    ⟨400, students, none⟩
  else
    let newStudent : Student :=
      { id := b.id.getD "", First_name := b.firstName.getD "",
        Last_name := b.lastName.getD "", email := b.email.getD "",
        display_name := if optTruthy b.displayName then b.displayName.getD ""
          else b.firstName.getD "" ++ " " ++ b.lastName.getD "",
        academic_level := if optTruthy b.academicLevel then b.academicLevel
          else none,
        profile_picture := if optTruthy b.profilePicture then b.profilePicture
          else none,
        created_at := now, updated_at := none }
    ⟨201, students ++ [newStudent], some newStudent⟩

/- ### PUT /users/profile/:userId (src/routes/user.ts lines 174-201) -/

/-- A JSON body field that may be absent (`none`), explicitly `null`
(`some none`), or a string (`some (some s)`). -/
def JsonField := Option (Option String)

instance : DecidableEq JsonField := inferInstanceAs (DecidableEq (Option (Option String)))

/-- JS truthiness of a body field: absent, `null`, and `""` are falsy. -/
def jsTruthy (f : JsonField) : Bool :=
  match f with
  | some (some s) => !s.isEmpty
  | _ => false

/-- The `PUT /users/profile/:userId` request body. -/
structure ProfileUpdateBody where
  First_name : JsonField
  Last_name : JsonField
  display_name : JsonField
  academic_level : JsonField
  profile_picture : JsonField

/-- A body that supplies only `display_name`. -/
def onlyDisplayBody (d : String) : ProfileUpdateBody :=
  ⟨none, none, some (some d), none, none⟩

/-- Truthy-guarded merge of a body field into a stored string field:
`...(field && { field })`. -/
def mergeStr (old : String) (f : JsonField) : String :=
  match f with
  | some (some v) => if v.isEmpty then old else v
  | _ => old

/-- Truthy-guarded merge into a nullable stored field (`academic_level`). -/
def mergeNullable (old : Option String) (f : JsonField) : Option String :=
  match f with
  | some (some v) => if v.isEmpty then old else some v
  | _ => old

/-- Presence-guarded merge of `profile_picture`:
`...(profile_picture !== undefined && { profile_picture })` — an explicit
`null` is merged. -/
def mergePicture (old : Option String) (f : JsonField) : Option String :=
  match f with
  | some v => v
  | none => old

/-- The updated record `{ ...stored, ...(guards), updated_at: now }` built by
the profile update handler for the stored record `s`. -/
def mergeStudent (s : Student) (b : ProfileUpdateBody) (now : String) : Student :=
  { s with
    First_name := mergeStr s.First_name b.First_name,
    Last_name := mergeStr s.Last_name b.Last_name,
    display_name := mergeStr s.display_name b.display_name,
    academic_level := mergeNullable s.academic_level b.academic_level,
    profile_picture := mergePicture s.profile_picture b.profile_picture,
    updated_at := some now }

/-- `findIndex` followed by in-place assignment of `f` at the found index:
replaces the first record matching `p`, returning the new list and the new
record, or `none` when no record matches. -/
def updateFirst (p : Student → Bool) (f : Student → Student) :
    List Student → Option (List Student × Student)
  | [] => none
  | s :: rest =>
    if p s then some (f s :: rest, f s)
    else
      match updateFirst p f rest with
      | none => none
      | some (rest2, upd) => some (s :: rest2, upd)

/-- `PUT /users/profile/:userId`: 404 when no student has the id, otherwise
merge the body into the first matching record in place and echo it back. -/
def updateProfile (students : List Student) (userId : String)
    (b : ProfileUpdateBody) (now : String) : MutResult Student :=
  match updateFirst (fun s => s.id == userId) (fun s => mergeStudent s b now)
      students with
  | none => ⟨404, students, none⟩
  | some (students2, upd) => ⟨200, students2, some upd⟩


/-- Conjunction of the six supplied filter criteria of `GET /courses`. -/
def matchesQuery (q : CoursesQuery) (c : Course) : Bool :=
  (!optTruthy q.search || matchesSearch (lowerStr (q.search.getD "")) c) &&
  (!optTruthy q.category || (c.category == q.category.getD "")) &&
  (!optTruthy q.level || (c.level == q.level.getD "")) &&
  (!(q.featured).isSome || (c.featured == (q.featured.getD "" == "true"))) &&
  (!(q.priceMin).isSome || decide (q.priceMin.getD 0 ≤ c.price)) &&
  (!(q.priceMax).isSome || decide (c.price ≤ q.priceMax.getD 0))

/-- A record with the same price as `courseWeb`, for the stability witness. -/
def samePriceCourse : Course := { courseReact with price := 9999 }

/-- The two mock courses in reversed order: a store state on which the
unsorted default order of `GET /courses` is not descending student count. -/
def cexStore : List Course := [courseReact, courseWeb]

/-- A guarded filter stage is itself a filter. -/
theorem condFilter {α : Type} (b : Bool) (p : α → Bool) (l : List α) :
    (if b then l.filter p else l) = l.filter (fun c => !b || p c) := by
  cases b <;> simp

/-- The sequential filter pipeline filters by the conjunction of the
supplied criteria. -/
theorem applyFilters_eq_filter (q : CoursesQuery) (l : List Course) :
    applyFilters q l = l.filter (matchesQuery q) := by
  unfold applyFilters
  rw [condFilter, condFilter, condFilter, condFilter, condFilter, condFilter,
    List.filter_filter, List.filter_filter, List.filter_filter,
    List.filter_filter, List.filter_filter]
  apply List.filter_congr
  intro c _
  simp [matchesQuery, Bool.and_comm, Bool.and_left_comm, Bool.and_assoc]

/-- The in-place sort does not change the length of the filtered array. -/
theorem sortCourses_length (sb : Option String) (l : List Course) :
    (sortCourses sb l).length = l.length := by
  cases sb with
  | none => rfl
  | some s =>
    show (if s = "" then l
      else if s = "price-low" then List.insertionSort byPriceLow l
      else if s = "price-high" then List.insertionSort byPriceHigh l
      else if s = "rating" then List.insertionSort byRating l
      else if s = "newest" then List.insertionSort byNewest l
      else List.insertionSort byPopular l).length = l.length
    split_ifs <;>
      first
        | rfl
        | exact (List.perm_insertionSort _ l).length_eq

/-- C1: for every store state and every combination of the optional
search/category/level/featured/priceMin/priceMax filters, the `total` field
reported by `GET /courses` equals the number of stored courses satisfying
all the supplied filter criteria, and is unchanged under any other
`limit`/`offset` values. -/
theorem getCourses_total_eq_filtered_count (store : List Course)
    (q : CoursesQuery) (lim off : Nat) :
    (getCourses store q).total = (store.filter (matchesQuery q)).length ∧
    (getCourses store { q with limit := lim, offset := off }).total =
      (getCourses store q).total := by
  constructor
  · show (sortCourses q.sortBy (applyFilters q store)).length = _
    rw [sortCourses_length, applyFilters_eq_filter]
  · rfl

/-- Every list is sorted for the trivial relation. -/
theorem sorted_trivial (l : List Course) :
    List.Sorted (fun _ _ => (True : Prop)) l := by
  induction l with
  | nil => simp
  | cons a t ih => exact List.Pairwise.cons (fun _ _ => trivial) ih

/-- The sorting step always yields a list sorted for the order relation
selected by the sort key. -/
theorem sorted_sortCourses (sb : Option String) (l : List Course) :
    List.Sorted (sortRel sb) (sortCourses sb l) := by
  cases sb with
  | none => exact sorted_trivial l
  | some s =>
    show List.Sorted
      (if s = "" then fun _ _ => True
        else if s = "price-low" then byPriceLow
        else if s = "price-high" then byPriceHigh
        else if s = "rating" then byRating
        else if s = "newest" then byNewest
        else byPopular)
      (if s = "" then l
        else if s = "price-low" then List.insertionSort byPriceLow l
        else if s = "price-high" then List.insertionSort byPriceHigh l
        else if s = "rating" then List.insertionSort byRating l
        else if s = "newest" then List.insertionSort byNewest l
        else List.insertionSort byPopular l)
    split_ifs
    · exact sorted_trivial l
    · exact List.sorted_insertionSort byPriceLow l
    · exact List.sorted_insertionSort byPriceHigh l
    · exact List.sorted_insertionSort byRating l
    · exact List.sorted_insertionSort byNewest l
    · exact List.sorted_insertionSort byPopular l

/-- The sorting step is stable: a pair appearing in comparator order (in
particular, a pair of records with equal keys in their pre-sort order)
remains a sublist of the sorted output. -/
theorem sortCourses_stable (sb : Option String) (l : List Course)
    (a b : Course) (h : List.Sublist [a, b] l) (hab : sortRel sb a b) :
    List.Sublist [a, b] (sortCourses sb l) := by
  cases sb with
  | none => exact h
  | some s =>
    show List.Sublist [a, b]
      (if s = "" then l
        else if s = "price-low" then List.insertionSort byPriceLow l
        else if s = "price-high" then List.insertionSort byPriceHigh l
        else if s = "rating" then List.insertionSort byRating l
        else if s = "newest" then List.insertionSort byNewest l
        else List.insertionSort byPopular l)
    have hab2 : (if s = "" then fun (_ _ : Course) => (True : Prop)
        else if s = "price-low" then byPriceLow
        else if s = "price-high" then byPriceHigh
        else if s = "rating" then byRating
        else if s = "newest" then byNewest
        else byPopular) a b := hab
    split_ifs at hab2 ⊢
    · exact h
    · exact List.pair_sublist_insertionSort hab2 h
    · exact List.pair_sublist_insertionSort hab2 h
    · exact List.pair_sublist_insertionSort hab2 h
    · exact List.pair_sublist_insertionSort hab2 h
    · exact List.pair_sublist_insertionSort hab2 h

/-- A slice `[offset, offset + limit)` of a sorted list is sorted. -/
theorem sorted_slice {r : Course → Course → Prop} {l : List Course}
    (h : List.Sorted r l) (off lim : Nat) :
    List.Sorted r ((l.drop off).take lim) :=
  h.sublist ((List.take_sublist lim (l.drop off)).trans (List.drop_sublist off l))

/-- C5: for every store state and filter combination, the course sequence
returned by `GET /courses` is sorted for the order relation of the selected
sort key — with `price-low` non-decreasing price, with `price-high`
non-increasing price — and the sort is stable: a pair of records in
comparator order (in particular a pair with equal keys in its pre-sort
order) stays in that order. -/
theorem getCourses_sorted_and_stable (store : List Course) (q : CoursesQuery) :
    List.Sorted (sortRel q.sortBy) ((getCourses store q).courses) ∧
    (∀ (l : List Course) (a b : Course), List.Sublist [a, b] l →
      sortRel q.sortBy a b → List.Sublist [a, b] (sortCourses q.sortBy l)) ∧
    (q.sortBy = some "price-low" →
      List.Sorted byPriceLow ((getCourses store q).courses)) ∧
    (q.sortBy = some "price-high" →
      List.Sorted byPriceHigh ((getCourses store q).courses)) := by
  have hsorted : List.Sorted (sortRel q.sortBy) ((getCourses store q).courses) :=
    sorted_slice (sorted_sortCourses q.sortBy (applyFilters q store))
      q.offset q.limit
  refine ⟨hsorted,
    fun l a b h hab => sortCourses_stable q.sortBy l a b h hab, ?_, ?_⟩
  · intro hq
    have he : sortRel q.sortBy = byPriceLow := by rw [hq]; simp [sortRel]
    rwa [he] at hsorted
  · intro hq
    have he : sortRel q.sortBy = byPriceHigh := by rw [hq]; simp [sortRel]
    rwa [he] at hsorted

/-- Witness for C5 at a concrete store and request. -/
theorem getCourses_sorted_and_stable_witness :
    List.Sorted byPriceLow ((getCourses [courseWeb, samePriceCourse]
      { emptyQuery with sortBy := some "price-low" }).courses) ∧
    List.Sublist [courseWeb, samePriceCourse]
      (sortCourses (some "price-low") [courseWeb, samePriceCourse]) := by
  refine ⟨(getCourses_sorted_and_stable [courseWeb, samePriceCourse]
      { emptyQuery with sortBy := some "price-low" }).2.2.1 rfl,
    (getCourses_sorted_and_stable [courseWeb, samePriceCourse]
      { emptyQuery with sortBy := some "price-low" }).2.1
      [courseWeb, samePriceCourse] courseWeb samePriceCourse
      (List.Sublist.refl _) ?_⟩
  have : byPriceLow courseWeb samePriceCourse := by
    simp [byPriceLow, courseWeb, samePriceCourse, courseReact]
  simpa [sortRel] using this

/-- C4 counterexample: with no `sortBy` parameter supplied, the handler
applies no sort at all, so a store whose records are not already in
popularity order is returned as stored — not ordered by descending
`student_count` (890 before 1250 here). -/
theorem getCourses_default_order_counterexample :
    (getCourses cexStore emptyQuery).courses = [courseReact, courseWeb] ∧
    ¬ List.Sorted byPopular ((getCourses cexStore emptyQuery).courses) := by
  constructor
  · rfl
  · decide

/-- C4 amended: an unknown non-empty `sortBy` value falls through to the
`switch` default and yields descending student-count order, but an absent
(or empty, hence falsy) `sortBy` skips sorting entirely and the filtered
courses keep their stored order. -/
theorem getCourses_unknown_sortBy_popular (store : List Course)
    (q : CoursesQuery) (s : String) (hq : q.sortBy = some s) (h0 : s ≠ "")
    (h1 : s ≠ "price-low") (h2 : s ≠ "price-high") (h3 : s ≠ "rating")
    (h4 : s ≠ "newest") :
    List.Sorted byPopular ((getCourses store q).courses) ∧
    (∀ (store2 : List Course) (q2 : CoursesQuery), q2.sortBy = none →
      (getCourses store2 q2).courses =
        ((applyFilters q2 store2).drop q2.offset).take q2.limit) := by
  constructor
  · have hs : sortCourses q.sortBy (applyFilters q store) =
        List.insertionSort byPopular (applyFilters q store) := by
      rw [hq]; simp [sortCourses, h0, h1, h2, h3, h4]
    show List.Sorted byPopular
      (((sortCourses q.sortBy (applyFilters q store)).drop q.offset).take q.limit)
    rw [hs]
    exact sorted_slice (List.sorted_insertionSort byPopular _) q.offset q.limit
  · intro store2 q2 h
    show (((sortCourses q2.sortBy (applyFilters q2 store2)).drop q2.offset).take
      q2.limit) = _
    rw [h]
    rfl

/-- Witness for C4 (amended) at a concrete store and request. -/
theorem getCourses_unknown_sortBy_popular_witness :
    List.Sorted byPopular ((getCourses mockCourses
      { emptyQuery with sortBy := some "unknown" }).courses) ∧
    (getCourses mockCourses emptyQuery).courses =
      ((applyFilters emptyQuery mockCourses).drop 0).take 20 := by
  have h := getCourses_unknown_sortBy_popular mockCourses
    { emptyQuery with sortBy := some "unknown" } "unknown" rfl
    (by decide) (by decide) (by decide) (by decide) (by decide)
  exact ⟨h.1, h.2 mockCourses emptyQuery rfl⟩

/-- C7 counterexample: the empty category string matches no stored course,
and the path endpoint does report not-found for it, but
`GET /courses?category=` does not return `total = 0`: the empty string is
falsy, the category filter is skipped, and all courses are returned. -/
theorem category_asymmetry_counterexample :
    mockCourses.all (fun c => !(c.category == "")) = true ∧
    getCoursesByCategory mockCourses "" none = .notFound ∧
    (getCourses mockCourses { emptyQuery with category := some "" }).total = 2 := by
  refine ⟨by decide, by decide, by decide⟩

/-- C7 amended: for every non-empty category string matching no stored
course, `GET /courses/category/:category` responds 404 while `GET /courses`
with the same category query parameter (and any other filters) succeeds with
an empty course list and `total = 0`. -/
theorem category_asymmetry (store : List Course) (cat : String)
    (lim : Option Nat) (q : CoursesQuery) (hne : cat ≠ "")
    (habs : ∀ c ∈ store, c.category ≠ cat) (hq : q.category = some cat) :
    getCoursesByCategory store cat lim = .notFound ∧
    (getCourses store q).total = 0 ∧ (getCourses store q).courses = [] := by
  have hany : store.any (fun c => c.category == cat) = false := by
    rw [List.any_eq_false]
    intro x hx
    simpa using habs x hx
  have hfil : applyFilters q store = [] := by
    rw [applyFilters_eq_filter]
    rw [List.filter_eq_nil_iff]
    intro c hc
    simp [matchesQuery, hq, optTruthy, String.isEmpty_iff, hne, habs c hc]
  have htotal : (getCourses store q).total = 0 := by
    show (sortCourses q.sortBy (applyFilters q store)).length = 0
    rw [sortCourses_length, hfil]
    rfl
  have hempty : sortCourses q.sortBy (applyFilters q store) = [] := by
    have hlen : (sortCourses q.sortBy (applyFilters q store)).length = 0 := htotal
    exact List.length_eq_zero.mp hlen
  refine ⟨by simp [getCoursesByCategory, hany], htotal, ?_⟩
  show ((sortCourses q.sortBy (applyFilters q store)).drop q.offset).take
    q.limit = []
  rw [hempty]
  simp

/-- Witness for C7 (amended) at a concrete store and category. -/
theorem category_asymmetry_witness :
    getCoursesByCategory mockCourses "Gardening" none = .notFound ∧
    (getCourses mockCourses { emptyQuery with category := some "Gardening" }).total = 0 ∧
    (getCourses mockCourses { emptyQuery with category := some "Gardening" }).courses = [] :=
  category_asymmetry mockCourses "Gardening" none
    { emptyQuery with category := some "Gardening" }
    (by decide) (by decide) rfl

/-- C9: when `GET /courses/category/:category` is called with a `limit` for
an existing category, the reported `total` is the length of the sliced
list, `min limit count` — not the unpaginated category count. -/
theorem getCoursesByCategory_total_sliced (store : List Course) (cat : String)
    (n : Nat) (h : ∃ c ∈ store, c.category = cat) :
    getCoursesByCategory store cat (some n) =
      .ok ((store.filter (fun c => c.category == cat)).take n)
        (min n (store.filter (fun c => c.category == cat)).length) := by
  have hany : store.any (fun c => c.category == cat) = true := by
    rw [List.any_eq_true]
    obtain ⟨c, hc, he⟩ := h
    exact ⟨c, hc, by simp [he]⟩
  simp [getCoursesByCategory, hany, List.length_take]

/-- Witness for C9 at the mock store: a limit of 1 on the two-course
`Programming` category reports `total = min 1 2`. -/
theorem getCoursesByCategory_total_sliced_witness :
    getCoursesByCategory mockCourses "Programming" (some 1) =
      .ok ((mockCourses.filter (fun c => c.category == "Programming")).take 1)
        (min 1 (mockCourses.filter (fun c => c.category == "Programming")).length) :=
  getCoursesByCategory_total_sliced mockCourses "Programming" 1
    ⟨courseWeb, by decide, by decide⟩

/-- A present non-empty string parameter is truthy. -/
theorem optTruthy_some_of_ne (s : String) (h : s ≠ "") :
    optTruthy (some s) = true := by
  cases he : s.isEmpty with
  | false => simp [optTruthy, he]
  | true => exact absurd ((String.isEmpty_iff s).mp he) h

/-- C2: `POST /enrollments` with both identifiers supplied appends exactly
one new record with the generated identifier and returns 201 when the
(student, course) pair is not yet enrolled, and returns 409 leaving the
store unchanged when it is. -/
theorem createEnrollment_conflict_or_append (store : List Enrollment)
    (sid cid : String) (tid : Option String) (nowId nowIso : String)
    (hs : sid ≠ "") (hc : cid ≠ "") :
    ((¬ ∃ e ∈ store, e.student_id = sid ∧ e.course_id = cid) →
      createEnrollment store (some sid) (some cid) tid nowId nowIso =
        ⟨201, store ++ [⟨"enrollment_" ++ nowId, nowIso, sid, cid,
            if optTruthy tid then tid else none⟩],
          some ⟨"enrollment_" ++ nowId, nowIso, sid, cid,
            if optTruthy tid then tid else none⟩⟩) ∧
    ((∃ e ∈ store, e.student_id = sid ∧ e.course_id = cid) →
      createEnrollment store (some sid) (some cid) tid nowId nowIso =
        ⟨409, store, none⟩) := by
  have htr : (optTruthy (some sid) && optTruthy (some cid)) = true := by
    rw [optTruthy_some_of_ne sid hs, optTruthy_some_of_ne cid hc]
    rfl
  constructor
  · intro hno
    have hfind : store.find?
        (fun e => e.student_id == sid && e.course_id == cid) = none := by
      rw [List.find?_eq_none]
      intro e he
      simp only [Bool.and_eq_true, beq_iff_eq, not_and]
      intro h1 h2
      exact hno ⟨e, he, h1, h2⟩
    simp [createEnrollment, htr, hfind]
  · rintro ⟨e, he, h1, h2⟩
    cases hfind : store.find?
        (fun e => e.student_id == sid && e.course_id == cid) with
    | none =>
      exfalso
      have hall := List.find?_eq_none.mp hfind e he
      simp [h1, h2] at hall
    | some e2 =>
      simp [createEnrollment, htr, hfind]

/-- Witness for C2: enrolling a pair not present succeeds with 201 and the
appended record; re-enrolling a present pair answers 409 unchanged. -/
theorem createEnrollment_conflict_or_append_witness :
    createEnrollment mockEnrollments (some "user_123") (some "course_2")
      none "99" "2024-03-01T00:00:00Z" =
      ⟨201, mockEnrollments ++ [⟨"enrollment_" ++ "99", "2024-03-01T00:00:00Z",
          "user_123", "course_2", if optTruthy none then none else none⟩],
        some ⟨"enrollment_" ++ "99", "2024-03-01T00:00:00Z",
          "user_123", "course_2", if optTruthy none then none else none⟩⟩ ∧
    createEnrollment mockEnrollments (some "user_123") (some "course_1")
      none "99" "2024-03-01T00:00:00Z" = ⟨409, mockEnrollments, none⟩ := by
  constructor
  · exact (createEnrollment_conflict_or_append mockEnrollments "user_123"
      "course_2" none "99" "2024-03-01T00:00:00Z" (by decide) (by decide)).1
      (by decide)
  · exact (createEnrollment_conflict_or_append mockEnrollments "user_123"
      "course_1" none "99" "2024-03-01T00:00:00Z" (by decide) (by decide)).2
      (by decide)

/-- C6: both enrollment-deletion handlers answer 404 and leave the store
unchanged when no record matches, and otherwise answer 200 after removing
exactly one record. -/
theorem enrollment_deletion_spec (store : List Enrollment)
    (eid studentId cid : String) (hcid : cid ≠ "") :
    ((∀ e ∈ store, e.id ≠ eid) → deleteEnrollment store eid = (404, store)) ∧
    ((∃ e ∈ store, e.id = eid) → (deleteEnrollment store eid).1 = 200 ∧
      (deleteEnrollment store eid).2.length + 1 = store.length) ∧
    ((∀ e ∈ store, ¬(e.student_id = studentId ∧ e.course_id = cid)) →
      unenroll store studentId (some cid) = (404, store)) ∧
    ((∃ e ∈ store, e.student_id = studentId ∧ e.course_id = cid) →
      (unenroll store studentId (some cid)).1 = 200 ∧
      (unenroll store studentId (some cid)).2.length + 1 = store.length) := by
  have htr : optTruthy (some cid) = true := optTruthy_some_of_ne cid hcid
  refine ⟨?_, ?_, ?_, ?_⟩
  · intro hall
    have hfind : store.findIdx? (fun e => e.id == eid) = none := by
      rw [List.findIdx?_eq_none_iff]
      intro e he
      simp [hall e he]
    simp [deleteEnrollment, hfind]
  · rintro ⟨e, he, hid⟩
    cases hfind : store.findIdx? (fun e => e.id == eid) with
    | none =>
      exfalso
      have := List.findIdx?_eq_none_iff.mp hfind e he
      simp [hid] at this
    | some i =>
      have hlt : i < store.length :=
        (List.findIdx?_eq_some_iff_findIdx_eq.mp hfind).1
      have hred : deleteEnrollment store eid = (200, store.eraseIdx i) := by
        simp [deleteEnrollment, hfind]
      rw [hred]
      refine ⟨rfl, ?_⟩
      show (store.eraseIdx i).length + 1 = store.length
      rw [List.length_eraseIdx_of_lt hlt]
      omega
  · intro hall
    have hfind : store.findIdx?
        (fun e => e.student_id == studentId && e.course_id == cid) = none := by
      rw [List.findIdx?_eq_none_iff]
      intro e he
      simp only [Bool.and_eq_false_iff, beq_eq_false_iff_ne, ne_eq]
      by_contra hcon
      push_neg at hcon
      exact hall e he ⟨hcon.1, hcon.2⟩
    simp [unenroll, htr, hfind]
  · rintro ⟨e, he, h1, h2⟩
    cases hfind : store.findIdx?
        (fun e => e.student_id == studentId && e.course_id == cid) with
    | none =>
      exfalso
      have := List.findIdx?_eq_none_iff.mp hfind e he
      simp [h1, h2] at this
    | some i =>
      have hlt : i < store.length :=
        (List.findIdx?_eq_some_iff_findIdx_eq.mp hfind).1
      have hred : unenroll store studentId (some cid) =
          (200, store.eraseIdx i) := by
        simp [unenroll, htr, hfind]
      rw [hred]
      refine ⟨rfl, ?_⟩
      show (store.eraseIdx i).length + 1 = store.length
      rw [List.length_eraseIdx_of_lt hlt]
      omega

/-- Witness for C6: deleting a missing id answers 404 unchanged; deleting a
present id answers 200 and shrinks the store by exactly one record. -/
theorem enrollment_deletion_spec_witness :
    deleteEnrollment mockEnrollments "enrollment_404" = (404, mockEnrollments) ∧
    (deleteEnrollment mockEnrollments "enrollment_1").1 = 200 ∧
    (deleteEnrollment mockEnrollments "enrollment_1").2.length + 1 =
      mockEnrollments.length ∧
    (unenroll mockEnrollments "user_456" (some "course_2")).1 = 200 ∧
    (unenroll mockEnrollments "user_456" (some "course_2")).2.length + 1 =
      mockEnrollments.length := by
  have h1 := enrollment_deletion_spec mockEnrollments "enrollment_404"
    "user_0" "course_0" (by decide)
  have h2 := enrollment_deletion_spec mockEnrollments "enrollment_1"
    "user_456" "course_2" (by decide)
  have hdel := h2.2.1 (by decide)
  have hun := h2.2.2.2 (by decide)
  exact ⟨h1.1 (by decide), hdel.1, hdel.2, hun.1, hun.2⟩

/-- C10: `GET /users/profile/:userId` answers 404 exactly when no user has
the id; an existing user with no student record yields a 200 response whose
`student` field is `null`. -/
theorem getProfile_notFound_iff (users : List User) (students : List Student)
    (userId : String) :
    (getProfile users students userId = .notFound ↔
      ¬ ∃ u ∈ users, u.id = userId) ∧
    ((∃ u ∈ users, u.id = userId) → (∀ s ∈ students, s.id ≠ userId) →
      ∃ u2, getProfile users students userId = .ok u2 none ∧
        u2.id = userId) := by
  cases hfind : users.find? (fun u => u.id == userId) with
  | none =>
    have hall := List.find?_eq_none.mp hfind
    constructor
    · constructor
      · rintro _ ⟨u, hu, he⟩
        exact hall u hu (by simp [he])
      · intro _
        simp [getProfile, hfind]
    · rintro ⟨u, hu, he⟩
      exact absurd (by simp [he] : (u.id == userId) = true) (by
        simpa using hall u hu)
  | some u =>
    have hmem := List.mem_of_find?_eq_some hfind
    have hid : u.id = userId := by simpa using List.find?_some hfind
    constructor
    · constructor
      · intro h
        rw [getProfile, hfind] at h
        exact ProfileResult.noConfusion h
      · intro hno
        exact absurd ⟨u, hmem, hid⟩ hno
    · intro _ hstu
      have hsf : students.find? (fun s => s.id == userId) = none := by
        rw [List.find?_eq_none]
        intro s hs
        simpa using hstu s hs
      exact ⟨u, by simp [getProfile, hfind, hsf], hid⟩

/-- Witness for C10: a missing user id is a 404; `user_123` with an empty
student store is a 200 with a `null` student. -/
theorem getProfile_notFound_iff_witness :
    getProfile mockUsers [] "user_999" = .notFound ∧
    (∃ u2, getProfile mockUsers [] "user_123" = .ok u2 none ∧
      u2.id = "user_123") := by
  constructor
  · exact (getProfile_notFound_iff mockUsers [] "user_999").1.mpr (by decide)
  · exact (getProfile_notFound_iff mockUsers [] "user_123").2 (by decide)
      (by decide)

/-- C8 counterexample: a duplicate `POST /users/create-profile` request is
answered with HTTP status 400 ("Student profile already exists"), not the
409 conflict status the claim asserts. -/
theorem createProfile_duplicate_counterexample :
    (createProfile mockStudents
      ⟨some "user_123", some "Johnny", some "D", some "jd@example.com",
        none, none, none⟩ "2024-03-01T00:00:00Z").status = 400 ∧
    ¬ (createProfile mockStudents
      ⟨some "user_123", some "Johnny", some "D", some "jd@example.com",
        none, none, none⟩ "2024-03-01T00:00:00Z").status = 409 := by
  decide

/-- C8 amended: a duplicate profile creation — all required fields truthy
and a stored student carrying the requested id — is rejected with status
400 and leaves the student store unchanged (`POST /enrollments`, by
contrast, reports its duplicates with 409). -/
theorem createProfile_duplicate_400 (students : List Student)
    (b : CreateProfileBody) (now : String)
    (hid : optTruthy b.id = true) (hf : optTruthy b.firstName = true)
    (hl : optTruthy b.lastName = true) (he : optTruthy b.email = true)
    (hdup : ∃ s ∈ students, s.id = b.id.getD "") :
    createProfile students b now = ⟨400, students, none⟩ := by
  have hfind : (students.find? (fun s => s.id == b.id.getD "")).isSome = true := by
    rw [List.find?_isSome]
    obtain ⟨s, hs, he2⟩ := hdup
    exact ⟨s, hs, by simp [he2]⟩
  simp [createProfile, hid, hf, hl, he, hfind]

/-- Witness for C8 (amended) at the mock student store. -/
theorem createProfile_duplicate_400_witness :
    createProfile mockStudents
      ⟨some "user_456", some "Janet", some "S", some "js@example.com",
        none, none, none⟩ "2024-03-01T00:00:00Z" =
      ⟨400, mockStudents, none⟩ :=
  createProfile_duplicate_400 mockStudents
    ⟨some "user_456", some "Janet", some "S", some "js@example.com",
      none, none, none⟩ "2024-03-01T00:00:00Z"
    (by decide) (by decide) (by decide) (by decide) (by decide)

/-- A falsy body field leaves a truthy-merged string field unchanged. -/
theorem mergeStr_falsy (old : String) (f : JsonField)
    (h : jsTruthy f = false) : mergeStr old f = old := by
  match f with
  | none => rfl
  | some none => rfl
  | some (some v) =>
    have hv : v.isEmpty = true := by simpa [jsTruthy] using h
    simp [mergeStr, hv]

/-- A falsy body field leaves a truthy-merged nullable field unchanged. -/
theorem mergeNullable_falsy (old : Option String) (f : JsonField)
    (h : jsTruthy f = false) : mergeNullable old f = old := by
  match f with
  | none => rfl
  | some none => rfl
  | some (some v) =>
    have hv : v.isEmpty = true := by simpa [jsTruthy] using h
    simp [mergeNullable, hv]

/-- `findIndex` + in-place assignment on a list whose first match is `s0`. -/
theorem updateFirst_append (p : Student → Bool) (f : Student → Student)
    (pre rest : List Student) (s0 : Student)
    (hpre : ∀ x ∈ pre, p x = false) (hs : p s0 = true) :
    updateFirst p f (pre ++ s0 :: rest) = some (pre ++ f s0 :: rest, f s0) := by
  induction pre with
  | nil => simp [updateFirst, hs]
  | cons x xs ih =>
    have hx : p x = false := hpre x (by simp)
    have ihx := ih (fun y hy => hpre y (by simp [hy]))
    simp [updateFirst, hx, ihx]

/-- C3: `PUT /users/profile/:userId` merges only the truthy-present body
fields into the first stored student with the id: a falsy (absent, null,
or empty) value leaves `First_name`, `Last_name`, `display_name` and
`academic_level` unchanged, a truthy value replaces them;
`profile_picture` is replaced whenever the key is present, explicit null
included; `id`, `email` and `created_at` are never touched; and a body
supplying only `display_name` changes exactly `display_name` and
`updated_at`. -/
theorem updateProfile_merge_only_present (s0 : Student) (b : ProfileUpdateBody)
    (now : String) :
    (jsTruthy b.First_name = false →
      (mergeStudent s0 b now).First_name = s0.First_name) ∧
    (jsTruthy b.Last_name = false →
      (mergeStudent s0 b now).Last_name = s0.Last_name) ∧
    (jsTruthy b.display_name = false →
      (mergeStudent s0 b now).display_name = s0.display_name) ∧
    (jsTruthy b.academic_level = false →
      (mergeStudent s0 b now).academic_level = s0.academic_level) ∧
    (∀ v, b.First_name = some (some v) → v ≠ "" →
      (mergeStudent s0 b now).First_name = v) ∧
    (∀ v, b.Last_name = some (some v) → v ≠ "" →
      (mergeStudent s0 b now).Last_name = v) ∧
    (∀ v, b.display_name = some (some v) → v ≠ "" →
      (mergeStudent s0 b now).display_name = v) ∧
    (∀ v, b.academic_level = some (some v) → v ≠ "" →
      (mergeStudent s0 b now).academic_level = some v) ∧
    (∀ j, b.profile_picture = some j →
      (mergeStudent s0 b now).profile_picture = j) ∧
    (b.profile_picture = none →
      (mergeStudent s0 b now).profile_picture = s0.profile_picture) ∧
    (mergeStudent s0 b now).id = s0.id ∧
    (mergeStudent s0 b now).email = s0.email ∧
    (mergeStudent s0 b now).created_at = s0.created_at ∧
    (∀ d, d ≠ "" → mergeStudent s0 (onlyDisplayBody d) now =
      { s0 with display_name := d, updated_at := some now }) ∧
    (∀ pre rest uid, (∀ x ∈ pre, x.id ≠ uid) → s0.id = uid →
      updateProfile (pre ++ s0 :: rest) uid b now =
        ⟨200, pre ++ mergeStudent s0 b now :: rest,
          some (mergeStudent s0 b now)⟩) := by
  have hemp : ∀ v : String, v ≠ "" → v.isEmpty = false := by
    intro v hv
    cases he : v.isEmpty with
    | false => rfl
    | true => exact absurd ((String.isEmpty_iff v).mp he) hv
  refine ⟨fun h => by simp [mergeStudent, mergeStr_falsy _ _ h],
    fun h => by simp [mergeStudent, mergeStr_falsy _ _ h],
    fun h => by simp [mergeStudent, mergeStr_falsy _ _ h],
    fun h => by simp [mergeStudent, mergeNullable_falsy _ _ h],
    fun v hv hne => by simp [mergeStudent, mergeStr, hv, hemp v hne],
    fun v hv hne => by simp [mergeStudent, mergeStr, hv, hemp v hne],
    fun v hv hne => by simp [mergeStudent, mergeStr, hv, hemp v hne],
    fun v hv hne => by simp [mergeStudent, mergeNullable, hv, hemp v hne],
    fun j hj => by simp [mergeStudent, mergePicture, hj],
    fun hj => by simp [mergeStudent, mergePicture, hj],
    rfl, rfl, rfl, ?_, ?_⟩
  · intro d hd
    simp [mergeStudent, onlyDisplayBody, mergeStr, mergeNullable,
      mergePicture, hemp d hd]
  · intro pre rest uid hpre hid
    have hupd := updateFirst_append (fun s => s.id == uid)
      (fun s => mergeStudent s b now) pre rest s0
      (fun x hx => by simpa using hpre x hx) (by simp [hid])
    simp [updateProfile, hupd]

/-- Witness for C3: updating `user_123` with a body supplying only
`display_name` rewrites exactly that field plus `updated_at`. -/
theorem updateProfile_merge_only_present_witness :
    updateProfile mockStudents "user_123" (onlyDisplayBody "JD")
      "2024-03-01T00:00:00Z" =
      ⟨200,
        [{ studentJohn with
            display_name := "JD"
            updated_at := some "2024-03-01T00:00:00Z" }, studentJane],
        some { studentJohn with
            display_name := "JD"
            updated_at := some "2024-03-01T00:00:00Z" }⟩ := by
  obtain ⟨-, -, -, -, -, -, -, -, -, -, -, -, -, honly, hupd⟩ :=
    updateProfile_merge_only_present studentJohn (onlyDisplayBody "JD")
      "2024-03-01T00:00:00Z"
  have h := hupd [] [studentJane] "user_123" (by simp) rfl
  rw [honly "JD" (by decide)] at h
  exact h
